import Mathlib

/-!
Shallow embedding of the exercise-tracking core of `src/script.js`.

The core logic lives in three functions of the source:

* `calculateJointAngle(x1,y1,x2,y2,x3,y3)` (lines 223-231): law-of-cosines
  angle at the middle point, in degrees.  JavaScript arithmetic on floats is
  modelled over `ℝ`; the JavaScript `NaN` outcomes (division by zero giving
  `NaN`/`±Infinity`, and `Math.acos` of an argument outside `[-1, 1]` giving
  `NaN`) are modelled by an `Option ℝ` result, `none` standing for `NaN`.
* `calculateAngle` (lines 210-220): rounds the computed angle with
  `Math.round` before storing it in `currentAngle`.  `Math.round x` is
  `⌊x + 1/2⌋` for finite JavaScript numbers, and `NaN` for `NaN`.
* `checkExerciseForm` (lines 234-260): the per-tick phase classifier and rep
  counter.  The mutable globals `lastPoseState` (a string or `null`) and
  `repsCount` become the fields of `TrackerState`; the `null`/`'down'`/`'up'`
  pose value becomes `Option PoseState`.  The angle argument is
  `Option ℚ` (`none` = `NaN`): in JavaScript both `NaN < 90` and
  `NaN > 160` are false, so a `NaN` angle falls into the `else` branch,
  which is exactly what the `none` case below does.

`startExercise` (lines 49-84) is the session-start action.  Its real work is
I/O (webcam, timer, DOM); the only program state it writes are `isRunning`
and `startTime`.  It is modelled as a function on a `SessionState` record
holding those fields plus the tracker fields, with the wall-clock time passed
in as a parameter.  Notably it does not touch `repsCount` or
`lastPoseState` — neither does any other code after the initializers on
lines 24-25.
-/

namespace Protofito

/-- Pose classification produced by `checkExerciseForm`: the strings
`'down'` and `'up'` of the source.  The source's third case keeps
`poseState = null`, modelled as `none` at the `Option PoseState` level. -/
inductive PoseState where
  | down
  | up
deriving DecidableEq, Repr

/-- The tracker's mutable globals: `lastPoseState` (line 25) and `repsCount`
(line 24) of the source. -/
structure TrackerState where
  lastPoseState : Option PoseState
  repsCount : Nat
deriving DecidableEq, Repr

/-- The phase computed by the `if`/`else if`/`else` chain of
`checkExerciseForm` (lines 240-251): `currentAngle < 90` gives `'down'`,
`currentAngle > 160` gives `'up'`, anything else (including `NaN`, for which
both comparisons are false) leaves `poseState` at `null`. -/
def classifyPose (currentAngle : Option ℚ) : Option PoseState :=
  match currentAngle with
  | none => none
  | some a => if a < 90 then some PoseState.down
              else if a > 160 then some PoseState.up
              else none

/-- One tick of `checkExerciseForm` (lines 234-260): compute `poseState`,
increment `repsCount` exactly when `lastPoseState === 'down' &&
poseState === 'up'` (line 254), then unconditionally store `poseState`
into `lastPoseState` (line 259). -/
def checkExerciseForm (s : TrackerState) (currentAngle : Option ℚ) : TrackerState :=
  let poseState := classifyPose currentAngle
  let reps := if s.lastPoseState = some PoseState.down ∧ poseState = some PoseState.up
              then s.repsCount + 1 else s.repsCount
  { lastPoseState := poseState, repsCount := reps }

/-- A sequence of consecutive ticks, each feeding one `currentAngle` value to
`checkExerciseForm`. -/
def runTicks (s : TrackerState) (angles : List (Option ℚ)) : TrackerState :=
  angles.foldl checkExerciseForm s

/-- JavaScript `Math.round` on a finite number: round half toward positive
infinity, i.e. `⌊x + 1/2⌋`. -/
def jsRound (x : ℚ) : ℤ :=
  ⌊x + 1 / 2⌋

/-- The per-tick pipeline of `calculateAngle` (line 218,
`currentAngle = Math.round(angle)`) followed by `checkExerciseForm`:
the raw angle (`none` = `NaN`, since `Math.round(NaN)` is `NaN`) is rounded
and the rounded value is what the classifier sees. -/
def processFrame (s : TrackerState) (angle : Option ℚ) : TrackerState :=
  checkExerciseForm s (angle.map fun q => ((jsRound q : ℤ) : ℚ))

/-- The program state written by the session-start / session-stop actions,
together with the tracker globals (which they do not write). -/
structure SessionState where
  isRunning : Bool
  startTime : Option Nat
  tracker : TrackerState
deriving DecidableEq, Repr

/-- State effect of `startExercise` (lines 49-84) on its success path: set
`isRunning = true` (line 64) and `startTime` to the current time (line 69).
The webcam, timer and DOM operations are I/O and carry no tracker state.
No assignment to `repsCount` or `lastPoseState` occurs anywhere in the
function. -/
def startExercise (s : SessionState) (now : Nat) : SessionState :=
  { s with isRunning := true, startTime := some now }

/-- The law-of-cosines angle of `calculateJointAngle` (lines 223-231), at the
vertex `(x2, y2)`, over `ℝ`.  `a`, `b`, `c` are the three side lengths as in
the source.  The result is `none` (JavaScript `NaN`) exactly when the
JavaScript expression evaluates to `NaN`: when the divisor `2*a*c` is zero
(then the quotient is `NaN` or `±Infinity` and `Math.acos` of it is `NaN`),
or when the quotient falls outside `Math.acos`'s domain `[-1, 1]`. -/
noncomputable def calculateJointAngle (x1 y1 x2 y2 x3 y3 : ℝ) : Option ℝ :=
  let a := Real.sqrt ((x2 - x3) ^ 2 + (y2 - y3) ^ 2)
  let b := Real.sqrt ((x1 - x3) ^ 2 + (y1 - y3) ^ 2)
  let c := Real.sqrt ((x1 - x2) ^ 2 + (y1 - y2) ^ 2)
  if 2 * a * c = 0 then none
  else if 1 < |(a * a + c * c - b * b) / (2 * a * c)| then none
  else some (Real.arccos ((a * a + c * c - b * b) / (2 * a * c)) * (180 / Real.pi))

/-- C5: on every tick, `repsCount` takes the value `repsCount + 1` exactly
when the previously recorded phase is `Down` and the phase computed on the
tick is `Up`, and is left unchanged otherwise; in particular an `Up`-to-`Down`
transition or a `Transitioning` tick never increments. -/
theorem rep_increment_iff_down_to_up (s : TrackerState) (a : Option ℚ) :
    (checkExerciseForm s a).repsCount =
      (if s.lastPoseState = some PoseState.down ∧ classifyPose a = some PoseState.up
       then s.repsCount + 1 else s.repsCount) ∧
    ((checkExerciseForm s a).repsCount = s.repsCount + 1 ↔
      (s.lastPoseState = some PoseState.down ∧ classifyPose a = some PoseState.up)) := by
  refine ⟨rfl, ?_⟩
  by_cases h : s.lastPoseState = some PoseState.down ∧ classifyPose a = some PoseState.up
  · simp [checkExerciseForm, h]
  · simp only [checkExerciseForm, if_neg h]
    simp [h]

/-- C8: over any sequence of ticks, `repsCount` is monotonically
non-decreasing — no tick ever decreases it. -/
theorem repsCount_monotone (s : TrackerState) (angles : List (Option ℚ)) :
    s.repsCount ≤ (runTicks s angles).repsCount := by
  induction angles generalizing s with
  | nil => exact Nat.le_refl _
  | cons a rest ih =>
    have h1 : runTicks s (a :: rest) = runTicks (checkExerciseForm s a) rest := rfl
    rw [h1]
    refine Nat.le_trans ?_ (ih (checkExerciseForm s a))
    simp only [checkExerciseForm]
    split <;> omega

/-- C1 counterexample: angles `80`, `100`, `170` classify as `Down`,
`Transitioning` (`null`) and `Up`, yet feeding them on three consecutive
ticks to a fresh tracker leaves `repsCount` at `0`, not `1`: the
`Transitioning` tick overwrote `lastPoseState` with `null`, so the `Up` tick
does not see a preceding `Down`. -/
theorem down_transitioning_up_counts_zero :
    classifyPose (some 80) = some PoseState.down ∧
    classifyPose (some 100) = none ∧
    classifyPose (some 170) = some PoseState.up ∧
    (runTicks ⟨none, 0⟩ [some 80, some 100, some 170]).repsCount = 0 := by
  decide

/-- C1 amended: after each tick `lastPoseState` is unconditionally set to the
phase just computed (including `Transitioning`, stored as `null`), and
consequently a `Down → Transitioning → Up` sequence on three consecutive
ticks does not increment `repsCount` at all — a rep is counted only when an
`Up` tick immediately follows a `Down` tick. -/
theorem lastPhase_overwritten_blocks_rep_across_transitioning :
    (∀ (s : TrackerState) (a : Option ℚ),
      (checkExerciseForm s a).lastPoseState = classifyPose a) ∧
    (∀ (s : TrackerState) (a b c : Option ℚ),
      classifyPose a = some PoseState.down → classifyPose b = none →
      classifyPose c = some PoseState.up →
      (runTicks s [a, b, c]).repsCount = s.repsCount) := by
  constructor
  · intro s a
    rfl
  · intro s a b c ha hb hc
    have h1 : runTicks s [a, b, c]
        = checkExerciseForm (checkExerciseForm (checkExerciseForm s a) b) c := rfl
    rw [h1]
    simp [checkExerciseForm, ha, hb, hc]

/-- C1 amended, instantiated: the two parts of
`lastPhase_overwritten_blocks_rep_across_transitioning` at the concrete
state `⟨none, 0⟩` and the concrete angles `80`, `100`, `170`. -/
theorem lastPhase_overwritten_blocks_rep_witness :
    (checkExerciseForm ⟨some PoseState.up, 2⟩ (some 100)).lastPoseState
      = classifyPose (some 100) ∧
    (runTicks ⟨some PoseState.up, 4⟩ [some 80, some 100, some 170]).repsCount
      = (⟨some PoseState.up, 4⟩ : TrackerState).repsCount :=
  ⟨lastPhase_overwritten_blocks_rep_across_transitioning.1 ⟨some PoseState.up, 2⟩ (some 100),
   lastPhase_overwritten_blocks_rep_across_transitioning.2 ⟨some PoseState.up, 4⟩
     (some 80) (some 100) (some 170) (by decide) (by decide) (by decide)⟩

/-- C2 counterexample: with the hard-coded thresholds, the boundary angle
`90` is classified `Transitioning` (`null`), not `Down`, and the boundary
angle `160` is classified `Transitioning`, not `Up` — the source comparisons
are strict (`< 90`, `> 160`). -/
theorem boundary_angles_are_transitioning :
    classifyPose (some 90) = none ∧
    classifyPose (some 90) ≠ some PoseState.down ∧
    classifyPose (some 160) = none ∧
    classifyPose (some 160) ≠ some PoseState.up := by
  decide

/-- C2 amended: an angle strictly below `90` is classified `Down`, an angle
strictly above `160` is classified `Up`, and every angle from `90` to `160`
inclusive (in particular exactly `90` and exactly `160`) is classified
`Transitioning`. -/
theorem classify_strict_thresholds (q : ℚ) :
    (q < 90 → classifyPose (some q) = some PoseState.down) ∧
    (160 < q → classifyPose (some q) = some PoseState.up) ∧
    (90 ≤ q → q ≤ 160 → classifyPose (some q) = none) := by
  refine ⟨fun h => ?_, fun h => ?_, fun h1 h2 => ?_⟩
  · simp [classifyPose, h]
  · have h0 : ¬ q < 90 := by linarith
    simp [classifyPose, h0, h]
  · have h0 : ¬ q < 90 := not_lt.mpr h1
    have h3 : ¬ q > 160 := not_lt.mpr h2
    simp [classifyPose, h0, h3]

/-- C2 amended, instantiated: `classify_strict_thresholds` applied at the
concrete angles `89`, `161`, `90` and `160`. -/
theorem classify_strict_thresholds_witness :
    classifyPose (some 89) = some PoseState.down ∧
    classifyPose (some 161) = some PoseState.up ∧
    classifyPose (some 90) = none ∧
    classifyPose (some 160) = none :=
  ⟨(classify_strict_thresholds 89).1 (by norm_num),
   (classify_strict_thresholds 161).2.1 (by norm_num),
   (classify_strict_thresholds 90).2.2 (by norm_num) (by norm_num),
   (classify_strict_thresholds 160).2.2 (by norm_num) (by norm_num)⟩

/-- C3 counterexample: starting a session from a state whose tracker already
holds `lastPoseState = Up, repsCount = 5` does not reinitialize the tracker
to `⟨none, 0⟩`, and the next `Down → Up` tick pair brings the count to `6`,
not `1`. -/
theorem session_start_keeps_prior_count :
    (startExercise ⟨false, none, ⟨some PoseState.up, 5⟩⟩ 0).tracker
      ≠ (⟨none, 0⟩ : TrackerState) ∧
    (runTicks (startExercise ⟨false, none, ⟨some PoseState.up, 5⟩⟩ 0).tracker
      [some 80, some 170]).repsCount = 6 := by
  decide

/-- C3 amended: the session-start action does not reinitialize the tracker:
`lastPoseState` and `repsCount` retain their prior values (they are assigned
only once, at script load), so the next `Down → Up` sequence continues
counting from the previous total rather than from `1`. -/
theorem session_start_does_not_reset (s : SessionState) (now : Nat) :
    (startExercise s now).tracker = s.tracker ∧
    (runTicks (startExercise s now).tracker [some 80, some 170]).repsCount
      = s.tracker.repsCount + 1 := by
  have h80 : classifyPose (some 80) = some PoseState.down := by decide
  have h170 : classifyPose (some 170) = some PoseState.up := by decide
  refine ⟨rfl, ?_⟩
  have h1 : runTicks (startExercise s now).tracker [some 80, some 170]
      = checkExerciseForm (checkExerciseForm s.tracker (some 80)) (some 170) := rfl
  rw [h1]
  simp [checkExerciseForm, h80, h170]

/-- C4 counterexample: feeding the `NaN` sentinel to a tracker whose
`lastPoseState` is `Down` overwrites `lastPoseState` (with `null`) instead of
leaving it unchanged. -/
theorem nan_overwrites_lastPhase :
    (checkExerciseForm ⟨some PoseState.down, 3⟩ none).lastPoseState
      ≠ (⟨some PoseState.down, 3⟩ : TrackerState).lastPoseState := by
  decide

/-- C4 amended: on a `NaN` angle the tracker classifies neither `Down` nor
`Up` (the phase stays `null`, the same value used for `Transitioning`, via
the failed comparisons) and `repsCount` is unchanged, but `lastPoseState` is
unconditionally overwritten with `null` rather than left unchanged. -/
theorem nan_no_phase_no_count_but_clears_lastPhase (s : TrackerState) :
    classifyPose none = none ∧
    (checkExerciseForm s none).repsCount = s.repsCount ∧
    (checkExerciseForm s none).lastPoseState = none := by
  refine ⟨rfl, ?_, rfl⟩
  simp [checkExerciseForm, classifyPose]

/-- C10: phase classification and rep counting depend on the raw angle only
through its `Math.round` image, so two raw angles with equal roundings
produce identical tracker behaviour on any state. -/
theorem equal_roundings_equal_outcome (s : TrackerState) (a b : ℚ)
    (h : jsRound a = jsRound b) :
    processFrame s (some a) = processFrame s (some b) := by
  simp [processFrame, h]

/-- C10, instantiated: `89.6` and `90.4` both round to `90`, so they drive
the tracker identically. -/
theorem equal_roundings_equal_outcome_witness :
    jsRound (89.6 : ℚ) = jsRound (90.4 : ℚ) ∧
    processFrame ⟨some PoseState.down, 0⟩ (some (89.6 : ℚ))
      = processFrame ⟨some PoseState.down, 0⟩ (some (90.4 : ℚ)) := by
  have h : jsRound (89.6 : ℚ) = jsRound (90.4 : ℚ) := by norm_num [jsRound]
  exact ⟨h, equal_roundings_equal_outcome ⟨some PoseState.down, 0⟩ _ _ h⟩

/-- C9: swapping the two endpoint arguments of `calculateJointAngle` (the
first and third point, keeping the vertex) never changes the result — the
side `b` opposite the vertex is unchanged while `a` and `c` trade places,
and the law-of-cosines expression is symmetric in `a` and `c`.  This holds
for all inputs, degenerate ones included, hence in particular for every
non-degenerate triple. -/
theorem calculateJointAngle_symm (x1 y1 x2 y2 x3 y3 : ℝ) :
    calculateJointAngle x1 y1 x2 y2 x3 y3 = calculateJointAngle x3 y3 x2 y2 x1 y1 := by
  have e1 : (x2 - x1) ^ 2 + (y2 - y1) ^ 2 = (x1 - x2) ^ 2 + (y1 - y2) ^ 2 := by ring
  have e2 : (x3 - x1) ^ 2 + (y3 - y1) ^ 2 = (x1 - x3) ^ 2 + (y1 - y3) ^ 2 := by ring
  have e3 : (x3 - x2) ^ 2 + (y3 - y2) ^ 2 = (x2 - x3) ^ 2 + (y2 - y3) ^ 2 := by ring
  simp only [calculateJointAngle, e1, e2, e3]
  set a := Real.sqrt ((x2 - x3) ^ 2 + (y2 - y3) ^ 2) with ha
  set b := Real.sqrt ((x1 - x3) ^ 2 + (y1 - y3) ^ 2) with hb
  set c := Real.sqrt ((x1 - x2) ^ 2 + (y1 - y2) ^ 2) with hc
  have m1 : 2 * c * a = 2 * a * c := by ring
  have m2 : c * c + a * a - b * b = a * a + c * c - b * b := by ring
  rw [m1, m2]

/-- C6 counterexample: the degenerate call `angleAt(p, q, p)` with
`p = (0,0)`, `q = (1,0)` — vertex distinct, endpoints coincident — returns
the numeric angle `0` rather than signalling an error or sentinel. -/
theorem degenerate_endpoints_give_numeric_zero :
    calculateJointAngle 0 0 1 0 0 0 = some 0 := by
  have h1 : ((1 : ℝ) - 0) ^ 2 + ((0 : ℝ) - 0) ^ 2 = 1 := by norm_num
  have h2 : ((0 : ℝ) - 0) ^ 2 + ((0 : ℝ) - 0) ^ 2 = 0 := by norm_num
  have h3 : ((0 : ℝ) - 1) ^ 2 + ((0 : ℝ) - 0) ^ 2 = 1 := by norm_num
  simp only [calculateJointAngle, h1, h2, h3, Real.sqrt_one, Real.sqrt_zero]
  norm_num [Real.arccos_one]

/-- C6 amended: `angleAt(p, p, q)` (vertex coinciding with the first
endpoint) does return the `NaN` sentinel and never a numeric angle, but
`angleAt(p, q, p)` with `p ≠ q` (the two endpoints coinciding) returns the
numeric angle `0`: there `b = 0` and `a = c ≠ 0`, so the cosine argument is
exactly `1` and `acos` yields `0`. -/
theorem degenerate_vertex_nan_but_endpoints_zero (px py qx qy : ℝ) :
    calculateJointAngle px py px py qx qy = none ∧
    ((px, py) ≠ (qx, qy) → calculateJointAngle px py qx qy px py = some 0) := by
  constructor
  · have hc : (px - px) ^ 2 + (py - py) ^ 2 = 0 := by ring
    simp [calculateJointAngle, hc]
  · intro hne
    have h2 : ¬ (px = qx ∧ py = qy) := by
      intro h
      exact hne (by rw [h.1, h.2])
    have hd : 0 < (px - qx) ^ 2 + (py - qy) ^ 2 := by
      rcases not_and_or.mp h2 with hx | hy
      · have hx0 : px - qx ≠ 0 := sub_ne_zero.mpr hx
        have := abs_pos.mpr hx0
        nlinarith [sq_nonneg (py - qy), sq_abs (px - qx)]
      · have hy0 : py - qy ≠ 0 := sub_ne_zero.mpr hy
        have := abs_pos.mpr hy0
        nlinarith [sq_nonneg (px - qx), sq_abs (py - qy)]
    have e1 : (qx - px) ^ 2 + (qy - py) ^ 2 = (px - qx) ^ 2 + (py - qy) ^ 2 := by ring
    have e2 : (px - px) ^ 2 + (py - py) ^ 2 = 0 := by ring
    simp only [calculateJointAngle, e1, e2, Real.sqrt_zero]
    set s := Real.sqrt ((px - qx) ^ 2 + (py - qy) ^ 2) with hs
    have hspos : 0 < s := Real.sqrt_pos.mpr hd
    have hdiv : ¬ (2 * s * s = 0) := by positivity
    have hratio : (s * s + s * s - 0 * 0) / (2 * s * s) = 1 := by
      field_simp
      ring
    rw [if_neg hdiv, hratio]
    norm_num [Real.arccos_one]

/-- C6 amended, instantiated: `degenerate_vertex_nan_but_endpoints_zero` at
`p = (0,0)`, `q = (1,0)` — the coincident-vertex call yields the `NaN`
sentinel while the coincident-endpoints call yields the numeric angle `0`. -/
theorem degenerate_vertex_nan_but_endpoints_zero_witness :
    calculateJointAngle 0 0 0 0 1 0 = none ∧
    calculateJointAngle 0 0 1 0 0 0 = some 0 :=
  ⟨(degenerate_vertex_nan_but_endpoints_zero 0 0 1 0).1,
   (degenerate_vertex_nan_but_endpoints_zero 0 0 1 0).2 (by norm_num [Prod.ext_iff])⟩

end Protofito
